import Mathlib

/-
  Verification development for the seekoon-backend M-Pesa payment
  reconciliation engine.

  The JavaScript source in src/controllers/paymentController.js,
  src/middleware/safaricomIpWhitelist.js and the payment routes is
  shallowly embedded below.  JavaScript values flowing through the
  callback payloads are modelled by the inductive type JsVal; JS numbers
  are modelled as rationals (no floating point behaviour is relied on by
  the embedded code paths); persistence (Mongo collections) is modelled
  as explicit lists threaded through each handler; a thrown JS exception
  is modelled by the Except monad.
-/

/-- A JavaScript value as it appears in a JSON callback payload, plus
the distinguished non-JSON values undefined and null produced by missing
property accesses. -/
inductive JsVal where
  | undefined
  | null
  | boolVal (b : Bool)
  | num (q : Rat)
  | str (s : String)
  | arr (xs : List JsVal)
  | obj (fields : List (String × JsVal))

/-- JS truthiness: undefined, null, false, 0 and the empty string are
falsy; every array and object is truthy. -/
def JsVal.isTruthy : JsVal → Bool
  | .undefined => false
  | .null => false
  | .boolVal b => b
  | .num q => decide (q ≠ 0)
  | .str s => decide (s ≠ "")
  | .arr _ => true
  | .obj _ => true

/-- Plain property access v.f: throws a TypeError when the base is
undefined or null; yields undefined for a missing key and for any
primitive or array base. -/
def JsVal.getField : JsVal → String → Except String JsVal
  | .undefined, _ => .error "TypeError: cannot read properties of undefined"
  | .null, _ => .error "TypeError: cannot read properties of null"
  | .obj fields, f => .ok ((fields.lookup f).getD .undefined)
  | _, _ => .ok .undefined

/-- Optional-chain property access v?.f: like getField but yields
undefined instead of throwing on an undefined or null base. -/
def JsVal.getFieldOpt : JsVal → String → JsVal
  | .undefined, _ => .undefined
  | .null, _ => .undefined
  | .obj fields, f => (fields.lookup f).getD .undefined
  | _, _ => .undefined

/-- The JS short-circuit a logical-or b on values: a when truthy, else b. -/
def jsOr (a b : JsVal) : JsVal := if a.isTruthy then a else b

/-- Strict equality v === s against a string literal. -/
def JsVal.isStrEq (v : JsVal) (s : String) : Bool :=
  match v with
  | .str t => decide (t = s)
  | _ => false

/-- Strict equality v === n against a number literal. -/
def JsVal.isNumEq (v : JsVal) (n : Rat) : Bool :=
  match v with
  | .num q => decide (q = n)
  | _ => false

/-- String interpolation of a JS value inside a template literal.  The
integral-number case (the one exercised by the gateway metadata) renders
exactly as in JS; non-integral rationals have no JS float counterpart in
this model and render as fractions. -/
def JsVal.jsTemplate : JsVal → String
  | .undefined => "undefined"
  | .null => "null"
  | .boolVal b => if b then "true" else "false"
  | .num q => if q.den = 1 then toString q.num else toString q
  | .str s => s
  | .arr _ => ""
  | .obj _ => "[object Object]"

/-- meta.find on a list of items, matching item.Name === name.  Accessing
.Name throws when an element is null or undefined, exactly as in JS. -/
def jsFindByName : List JsVal → String → Except String (Option JsVal)
  | [], _ => .ok none
  | x :: rest, name => do
      let n ← x.getField "Name"
      if n.isStrEq name then .ok (some x) else jsFindByName rest name

/-- Models meta.find(item => item.Name === name)?.Value where meta is an
arbitrary JS value: calling .find on a non-array throws a TypeError. -/
def metaLookup (meta : JsVal) (name : String) : Except String JsVal :=
  match meta with
  | .arr xs => do
      let fd ← jsFindByName xs name
      .ok (match fd with
            | some x => x.getFieldOpt "Value"
            | none => .undefined)
  | _ => .error "TypeError: meta.find is not a function"

/-- The paymentResult subdocument of an Order (models/Order.js). -/
structure PaymentResult where
  id : Option String
  status : String
  emailAddress : Option String
deriving Repr, DecidableEq

/-- One line item of an order (models/Order.js items array); only the
fields the payment controller reads are kept. -/
structure OrderItem where
  price : Rat
  quantity : Rat
deriving Repr, DecidableEq

/-- An Order document (models/Order.js), restricted to the fields the
payment controller reads or writes. -/
structure Order where
  oid : String
  user : Option String
  userEmail : Option String
  items : List OrderItem
  totalAmount : Rat
  paymentReference : Option String
  mpesaCheckoutRequestId : Option String
  isPaid : Bool
  paidAt : Option Nat
  paymentResult : Option PaymentResult
  status : String
deriving Repr, DecidableEq

/-- Modelled from the spec: the FinancialRecord (Transaction) persisted
entity, whose schema file (models/Transaction.js) is not among the
provided sources.  Fields follow the spec and the create calls in the
controller: userIdentifier, method, amount, status, reference, raw
callback audit data.  Neither the spec nor the controller mentions any
uniqueness constraint, so creation is a plain append. -/
structure Transaction where
  userEmail : String
  phoneNumber : String
  method : String
  amount : JsVal
  status : String
  reference : JsVal
  mpesaResponse : Option JsVal
  callbackData : JsVal

/-- A Cart document, restricted to the fields the payment controller
writes via findOneAndUpdate; item payloads are abstracted to ids. -/
structure Cart where
  userId : String
  items : List String
  totalItems : Rat
  totalPrice : Rat
deriving Repr, DecidableEq

/-- A Notification document (models/Notification.js) as created by the
payment controller. -/
structure Notif where
  ntype : String
  message : String
  orderId : Option String
deriving Repr, DecidableEq

/-- The shared persistent state: the Mongo collections the payment
controller touches. -/
structure DB where
  orders : List Order
  transactions : List Transaction
  carts : List Cart
  notifs : List Notif

/-- Order.findOne on mpesaCheckoutRequestId.  The lookup key is string
valued in every path the claims exercise; a non-string key matches no
document in this model. -/
def findOrderByCheckoutId (db : DB) (cid : JsVal) : Option Order :=
  match cid with
  | .str s => db.orders.find? (fun o => o.mpesaCheckoutRequestId == some s)
  | _ => none

/-- Order.findById. -/
def findOrderById (db : DB) (oid : String) : Option Order :=
  db.orders.find? (fun o => o.oid == oid)

/-- order.save: replace the document with the same id. -/
def saveOrder (db : DB) (o : Order) : DB :=
  { db with orders := db.orders.map (fun x => if x.oid == o.oid then o else x) }

/-- Transaction.create: appends a document. -/
def createTransaction (db : DB) (t : Transaction) : DB :=
  { db with transactions := db.transactions ++ [t] }

/-- Notification.create: appends a document. -/
def createNotif (db : DB) (n : Notif) : DB :=
  { db with notifs := db.notifs ++ [n] }

/-- Cart.findOneAndUpdate on userId, setting items to empty and the
totals to zero on the first matching cart. -/
def clearCartList : List Cart → String → List Cart
  | [], _ => []
  | c :: rest, uid =>
      if c.userId == uid then { c with items := [], totalItems := 0, totalPrice := 0 } :: rest
      else c :: clearCartList rest uid

/-- Clear the cart of a user (Side-Effect Dispatcher clearCart). -/
def clearCartForUser (db : DB) (uid : String) : DB :=
  { db with carts := clearCartList db.carts uid }

/-- order?.userEmail followed by a falsy-or default, as a String: an
empty stored email is falsy in JS and falls through to the default. -/
def orElseStr (v : Option String) (d : String) : String :=
  match v with
  | some s => if s = "" then d else s
  | none => d

/-- Mongoose cast of a JS value to an optional String field: undefined
and null leave the field unset, everything else stringifies. -/
def jsToStrOpt : JsVal → Option String
  | .undefined => none
  | .null => none
  | v => some v.jsTemplate

/-- Lift an optional stored string back to the JS value read off the
document (absent field reads as undefined). -/
def optStrToJs : Option String → JsVal
  | some s => .str s
  | none => .undefined

/-- An HTTP response of the callback endpoint. -/
structure HttpResp where
  status : Nat
  body : JsVal

/-- The fixed acknowledgement body sent on line 355 of the controller. -/
def acceptedBody : JsVal :=
  .obj [("ResultCode", .num 0), ("ResultDesc", .str "Accepted")]

/-- The body sent by the outer catch block on lines 358-361. -/
def callbackErrorBody : JsVal :=
  .obj [("success", .boolVal false), ("message", .str "Callback processing failed")]

/-- The order fields written on success (controller lines 297-304). -/
def paidOrder (o : Order) (mpesaReceipt phoneNumber : JsVal) (now : Nat) : Order :=
  { o with
      isPaid := true
      paidAt := some now
      paymentResult := some ⟨jsToStrOpt mpesaReceipt, "Completed", jsToStrOpt phoneNumber⟩
      status := "processing" }

/-- The notification document created for a paid order. -/
def paidNotif (o : Order) (amountVal : JsVal) : Notif :=
  ⟨"NEW_ORDER",
   "Payment received! Order paid: KSh " ++ (jsOr amountVal (.num o.totalAmount)).jsTemplate,
   some o.oid⟩

/-- The success-path effects repeated verbatim by both reconciliation
entry points (controller lines 295-331 and 389-427): mark the order
paid, clear the cart of its user when present, create the admin
notification. -/
def applyOrderSuccess (db : DB) (o : Order) (amountVal mpesaReceipt phoneNumber : JsVal)
    (now : Nat) : DB :=
  let db2 := saveOrder db (paidOrder o mpesaReceipt phoneNumber now)
  let db3 := match o.user with
    | some uid => clearCartForUser db2 uid
    | none => db2
  createNotif db3 (paidNotif o amountVal)

/-- The Transaction document built on the success path (controller lines
278-288 and 374-382); the two call sites differ only in the audit fields
mpesaResponse and callbackData, passed in here. -/
def mkSuccessTransaction (order : Option Order) (checkoutRequestID amountVal phoneNumber : JsVal)
    (mpesaResponse : Option JsVal) (callbackData : JsVal) : Transaction :=
  { userEmail :=
      orElseStr (order.bind (fun o => o.userEmail))
        (if phoneNumber.isTruthy then phoneNumber.jsTemplate ++ "@mpesa.com"
         else "unknown@seekon.com")
    phoneNumber := (jsOr phoneNumber (.str "")).jsTemplate
    method := "mpesa"
    amount := jsOr amountVal (.num 0)
    status := "completed"
    reference := jsOr (optStrToJs (order.bind (fun o => o.paymentReference))) checkoutRequestID
    mpesaResponse := mpesaResponse
    callbackData := callbackData }

/-- The failure path shared verbatim by both entry points (controller
lines 340-350 and 437-446): no Transaction; the linked order, when one
exists, has its status set to cancelled. -/
def applyFailure (db : DB) (checkoutRequestID : JsVal) : DB :=
  match findOrderByCheckoutId db checkoutRequestID with
  | some o => saveOrder db { o with status := "cancelled" }
  | none => db

/-- The body of the mpesaCallback handler (controller lines 248-352),
threading the persistent state and surfacing any JS exception raised
outside the inner try/catch blocks.  Every throw point of the handler
precedes its first write, so the state at a throw is the input state. -/
def mpesaCallbackProcess (body : JsVal) (now : Nat) (db : DB) : Except String DB := do
  let bodyField ← body.getField "Body"
  let stk := bodyField.getFieldOpt "stkCallback"
  if stk.isTruthy then
    let resultCode ← stk.getField "ResultCode"
    let checkoutRequestID ← stk.getField "CheckoutRequestID"
    if resultCode.isNumEq 0 then
      let cbMeta ← stk.getField "CallbackMetadata"
      let meta := jsOr (cbMeta.getFieldOpt "Item") (.arr [])
      let amountPaid ← metaLookup meta "Amount"
      let mpesaReceipt ← metaLookup meta "MpesaReceiptNumber"
      let phoneNumber ← metaLookup meta "PhoneNumber"
      let order := findOrderByCheckoutId db checkoutRequestID
      let db1 := createTransaction db
        (mkSuccessTransaction order checkoutRequestID amountPaid phoneNumber (some stk) stk)
      match order with
      | some o => .ok (applyOrderSuccess db1 o amountPaid mpesaReceipt phoneNumber now)
      | none => .ok db1
    else
      .ok (applyFailure db checkoutRequestID)
  else
    .ok db

/-- The mpesaCallback Express handler: acknowledges with the fixed 200
body when processing completes, and answers 500 from the outer catch
block when a JS exception escapes (controller lines 354-362). -/
def mpesaCallback (body : JsVal) (now : Nat) (db : DB) : DB × HttpResp :=
  match mpesaCallbackProcess body now db with
  | .ok db2 => (db2, ⟨200, acceptedBody⟩)
  | .error _ => (db, ⟨500, callbackErrorBody⟩)

/-- processMpesaResult (controller lines 366-449): the query-side
resolution of a payment outcome.  Returns the new state and the boolean
the function returns to its caller. -/
def processMpesaResult (resultCode checkoutRequestID amountVal mpesaReceipt phoneNumber : JsVal)
    (now : Nat) (db : DB) : DB × Bool :=
  if resultCode.isNumEq 0 || resultCode.isStrEq "0" then
    let order := findOrderByCheckoutId db checkoutRequestID
    let db1 := createTransaction db
      (mkSuccessTransaction order checkoutRequestID amountVal phoneNumber none
        (.obj [("ResultCode", resultCode), ("ResultDesc", .str "Success via query")]))
    match findOrderByCheckoutId db1 checkoutRequestID with
    | some o => (applyOrderSuccess db1 o amountVal mpesaReceipt phoneNumber now, true)
    | none => (db1, true)
  else
    (applyFailure db checkoutRequestID, false)

/-- The result-consuming tail of queryMpesaTransaction (controller lines
515-552): extract ResultCode and the optional metadata from the gateway
response, feed them through processMpesaResult, and report which of the
two 200 response bodies the handler selects (true for the success body).
A JS exception (for example a non-array Item) propagates to the outer
catch, which answers 500 without processing. -/
def queryProcess (respData : JsVal) (checkoutRequestId : String) (now : Nat) (db : DB) :
    Except String (DB × Bool) := do
  let resultCode ← respData.getField "ResultCode"
  let cbMeta ← respData.getField "CallbackMetadata"
  let extracted ←
    if cbMeta.isTruthy then do
      let item ← cbMeta.getField "Item"
      let meta := jsOr item (.arr [])
      let amountVal ← metaLookup meta "Amount"
      let mpesaReceipt ← metaLookup meta "MpesaReceiptNumber"
      let phoneNumber ← metaLookup meta "PhoneNumber"
      pure (amountVal, mpesaReceipt, phoneNumber)
    else
      pure (JsVal.null, JsVal.null, JsVal.null)
  let (db2, _) := processMpesaResult resultCode (.str checkoutRequestId)
      extracted.1 extracted.2.1 extracted.2.2 now db
  .ok (db2, resultCode.isNumEq 0 || resultCode.isStrEq "0")

/-- JS startsWith on code points. -/
def jsStartsWith (s p : String) : Bool := List.isPrefixOf p.toList s.toList

/-- Strip every non-digit character (the replace of \D by nothing on
line 108 of the controller). -/
def stripNonDigits (s : String) : String := String.mk (s.toList.filter Char.isDigit)

/-- Phone normalization (controller lines 107-113): strip non-digits,
then replace one leading 0 by 254. -/
def formatPhone (raw : String) : String :=
  let p := stripNonDigits raw
  if jsStartsWith p "0" then String.mk ('2' :: '5' :: '4' :: p.toList.drop 1) else p

/-- Math.round on a rational: JS rounds half upward, which is the floor
of x + 1/2. -/
def jsRound (q : Rat) : Int := ⌊q + 1 / 2⌋

/-- The order total recomputed from stored line items (controller lines
88-90): reduce of price times quantity starting from 0. -/
def orderTotal (o : Order) : Rat :=
  o.items.foldl (fun sum it => sum + it.price * it.quantity) 0

/-- The configuration the initiation handler reads from the process
environment: whether gateway credentials are present and whether the
sandbox environment is selected. -/
structure InitEnv where
  hasCredentials : Bool
  isSandbox : Bool
deriving Repr, DecidableEq

/-- The request body of an initiation call.  rawPhone models
body.phone falsy-or body.phoneNumber; a missing or empty (falsy) value
is none.  amount is the caller-supplied amount as a JS number, none when
absent. -/
structure InitReq where
  phone : Option String
  amount : Option Rat
  userEmail : Option String
  orderId : Option String
deriving Repr, DecidableEq

/-- The STK push request body assembled on controller lines 174-186,
restricted to the request-dependent fields (the credential-derived
fields BusinessShortCode, Password and Timestamp are opaque
configuration). -/
structure StkPushData where
  amount : Int
  partyA : String
  phoneNumber : String
  accountReference : String
  transactionType : String
  transactionDesc : String
deriving Repr, DecidableEq

/-- The observable outcome of the initiation handler up to the gateway
boundary: a 400 rejection, the mock-mode 200, or the assembled STK push
request handed to the gateway. -/
inductive InitOutcome where
  | badRequest (message : String)
  | mock (reference : String)
  | stkSend (payload : StkPushData)
deriving Repr, DecidableEq

/-- The amount-determination step (controller lines 81-98): when an
orderId is supplied and the order is found, the recomputed total
overrides the caller amount; otherwise the caller amount stands.
Database failures of the order lookup are subsumed by the missing-order
case (both fall back to the caller amount). -/
def effectiveAmount (req : InitReq) (db : DB) : Option Rat :=
  match req.orderId with
  | some oid =>
      match findOrderById db oid with
      | some o => some (orderTotal o)
      | none => req.amount
  | none => req.amount

/-- initiateMpesaPayment (controller lines 65-232) up to the gateway
boundary.  epochMs and randHex abstract Date.now() and the random hex
suffix of the reference. -/
def initiateMpesa (env : InitEnv) (req : InitReq) (db : DB) (epochMs : Nat)
    (randHex : String) : InitOutcome :=
  match req.phone, req.userEmail with
  | none, _ => .badRequest "Phone number and email are required"
  | some _, none => .badRequest "Phone number and email are required"
  | some rawPhone, some _ =>
    match effectiveAmount req db with
    | none => .badRequest "Amount is required"
    | some a =>
      if a = 0 then .badRequest "Amount is required"
      else
        let formattedPhone := formatPhone rawPhone
        if ¬ jsStartsWith formattedPhone "254" then
          .badRequest "Invalid Kenyan phone number format"
        else
          let finalAmount := jsRound a
          let reference := "MPESA" ++ toString epochMs ++ randHex
          if ¬ env.hasCredentials then .mock reference
          else
            let amountForSTK : Int := if env.isSandbox then 1 else finalAmount
            .stkSend
              { amount := amountForSTK
                partyA := formattedPhone
                phoneNumber := formattedPhone
                accountReference := reference
                transactionType := "CustomerPayBillOnline"
                transactionDesc := "Seekon Apparel Purchase" }

/-- The published gateway source addresses hardcoded in
middleware/safaricomIpWhitelist.js. -/
def safaricomIPs : List String :=
  ["196.201.214.200", "196.201.214.206", "196.201.213.114", "196.201.214.207",
   "196.201.213.44", "196.201.212.127", "196.201.212.138", "196.201.212.129",
   "196.201.212.136", "196.201.212.74", "196.201.212.69"]

/-- JS String.prototype.includes for a single character. -/
def jsContainsChar (s : String) (c : Char) : Bool := s.toList.contains c

/-- The part of a string before its first comma (split on comma, first
piece). -/
def beforeFirstComma (s : String) : String :=
  String.mk (s.toList.takeWhile (fun c => c ≠ ','))

/-- JS String.prototype.trim: strip whitespace from both ends. -/
def jsTrim (s : String) : String :=
  String.mk (((s.toList.dropWhile Char.isWhitespace).reverse.dropWhile
    Char.isWhitespace).reverse)

/-- The source address after the cleaning steps of the middleware
(lines 18-26): the x-forwarded-for header falsy-or the socket address,
then the part before the first comma trimmed, then one leading ::ffff:
prefix removed. -/
def cleanRequestIp (xForwardedFor remoteAddress : Option String) : Option String :=
  let raw := match xForwardedFor with
    | some s => if s = "" then remoteAddress else some s
    | none => remoteAddress
  match raw with
  | none => none
  | some s =>
      let s1 := if jsContainsChar s ',' then jsTrim (beforeFirstComma s) else s
      let s2 := if jsStartsWith s1 "::ffff:" then String.mk (s1.toList.drop 7) else s1
      some s2

/-- The decision of a connect middleware: pass the request on, or end it
with a 403. -/
inductive MwDecision where
  | proceed
  | forbidden
deriving Repr, DecidableEq

/-- The localhost test of middleware line 29. -/
def isLocalhostIp (ip : Option String) : Bool :=
  ip == some "127.0.0.1" || ip == some "::1" || ip == some "::ffff:127.0.0.1"

/-- safaricomIpWhitelist (middleware lines 16-48): allow development
mode and localhost, allow listed gateway addresses, block the rest with
a 403. -/
def safaricomIpWhitelist (xForwardedFor remoteAddress : Option String)
    (nodeEnv : String) : MwDecision :=
  let requestIp := cleanRequestIp xForwardedFor remoteAddress
  if nodeEnv = "development" || isLocalhostIp requestIp then .proceed
  else
    match requestIp with
    | some ip => if safaricomIPs.contains ip then .proceed else .forbidden
    | none => .forbidden

/-- The mpesa-callback route as mounted in paymentRoutes: the handler is
attached with no middleware in front of it (the IP allowlist import is
unused on this route), so every request reaches mpesaCallback directly,
whatever its source address or the NODE_ENV value. -/
def handleMpesaCallbackRoute (_xForwardedFor _remoteAddress : Option String)
    (_nodeEnv : String) (body : JsVal) (now : Nat) (db : DB) : DB × HttpResp :=
  mpesaCallback body now db

/-- The CallbackMetadata item list of the documented gateway shape: an
array of objects with Name and Value fields. -/
def mkMetaItems (items : List (String × JsVal)) : List JsVal :=
  items.map (fun p => JsVal.obj [("Name", .str p.1), ("Value", p.2)])

/-- The stkCallback object of the documented gateway shape. -/
def stkObjOf (rc : JsVal) (cid : String) (items : List (String × JsVal)) : JsVal :=
  .obj [("ResultCode", rc), ("CheckoutRequestID", .str cid),
        ("CallbackMetadata", .obj [("Item", .arr (mkMetaItems items))])]

/-- A full callback request body of the documented gateway shape. -/
def mkStkPayload (rc : JsVal) (cid : String) (items : List (String × JsVal)) : JsVal :=
  .obj [("Body", .obj [("stkCallback", stkObjOf rc cid items)])]

/-- Total metadata extraction on the documented shape: the Value of the
first item with the given Name, undefined when absent. -/
def metaGet (items : List (String × JsVal)) (name : String) : JsVal :=
  match items.find? (fun p => p.1 == name) with
  | some p => p.2
  | none => .undefined

/-- The state transformation the callback handler performs on a payload
of the documented gateway shape. -/
def callbackStep (rc : JsVal) (cid : String) (items : List (String × JsVal))
    (now : Nat) (db : DB) : DB :=
  if rc.isNumEq 0 then
    let order := findOrderByCheckoutId db (.str cid)
    let db1 := createTransaction db
      (mkSuccessTransaction order (.str cid) (metaGet items "Amount")
        (metaGet items "PhoneNumber") (some (stkObjOf rc cid items)) (stkObjOf rc cid items))
    match order with
    | some o =>
        applyOrderSuccess db1 o (metaGet items "Amount") (metaGet items "MpesaReceiptNumber")
          (metaGet items "PhoneNumber") now
    | none => db1
  else
    applyFailure db (.str cid)

def c4Order : Order :=
  { oid := "ord4", user := none, userEmail := some "b@c.d",
    items := [⟨500, 2⟩, ⟨300, 1⟩], totalAmount := 1300,
    paymentReference := none, mpesaCheckoutRequestId := none,
    isPaid := false, paidAt := none, paymentResult := none, status := "pending" }

def c4Db : DB := { orders := [c4Order], transactions := [], carts := [], notifs := [] }

def c4Req : InitReq :=
  { phone := some "0712345678", amount := some 1, userEmail := some "b@c.d",
    orderId := some "ord4" }

/-- The fields of a FinancialRecord other than the raw-callback audit
fields mpesaResponse and callbackData. -/
def txCore (t : Transaction) : String × String × String × JsVal × String × JsVal :=
  (t.userEmail, t.phoneNumber, t.method, t.amount, t.status, t.reference)

/-- processMpesaResult with the redundant second order lookup folded
away: creating a Transaction does not change the orders, so the second
findOne returns what the first did. -/
def processStep (rc cid a r p : JsVal) (now : Nat) (db : DB) : DB × Bool :=
  if rc.isNumEq 0 || rc.isStrEq "0" then
    (match findOrderByCheckoutId db cid with
     | some o =>
         applyOrderSuccess
           (createTransaction db (mkSuccessTransaction (findOrderByCheckoutId db cid) cid a p none
             (.obj [("ResultCode", rc), ("ResultDesc", .str "Success via query")])))
           o a r p now
     | none =>
         createTransaction db (mkSuccessTransaction (findOrderByCheckoutId db cid) cid a p none
           (.obj [("ResultCode", rc), ("ResultDesc", .str "Success via query")])),
     true)
  else (applyFailure db cid, false)

def c2BadPayload : JsVal :=
  .obj [("Body", .obj [("stkCallback", .obj
    [("ResultCode", .num 0), ("CheckoutRequestID", .str "ws_X"),
     ("CallbackMetadata", .obj [("Item", .num 5)])])])]

def c3Order : Order :=
  { oid := "o3", user := none, userEmail := some "u@v.w", items := [], totalAmount := 700,
    paymentReference := some "R3", mpesaCheckoutRequestId := some "ws_2",
    isPaid := false, paidAt := none, paymentResult := none, status := "pending" }

def c3Db : DB := { orders := [c3Order], transactions := [], carts := [], notifs := [] }

def c6Order : Order :=
  { oid := "o6", user := none, userEmail := none, items := [], totalAmount := 50,
    paymentReference := none, mpesaCheckoutRequestId := some "ws_6",
    isPaid := true, paidAt := some 1,
    paymentResult := some { id := some "RCP", status := "Completed",
                            emailAddress := some "254700000000" },
    status := "processing" }

def c6Db : DB := { orders := [c6Order], transactions := [], carts := [], notifs := [] }

/-- The failure-path postcondition: no FinancialRecord created, carts
and notifications untouched, the linked order (when one exists) has its
status set to cancelled and every other order is unchanged; with no
linked order the state is unchanged entirely. -/
def FailureOutcome (db d : DB) (cid : String) : Prop :=
  d.transactions = db.transactions ∧ d.carts = db.carts ∧ d.notifs = db.notifs ∧
  (findOrderByCheckoutId db (.str cid) = none → d = db) ∧
  (∀ o, findOrderByCheckoutId db (.str cid) = some o →
     d.orders = db.orders.map
       (fun x => if x.oid == o.oid then { o with status := "cancelled" } else x))

def c5Order : Order :=
  { oid := "o5", user := none, userEmail := some "e@f.g", items := [], totalAmount := 10,
    paymentReference := some "R5", mpesaCheckoutRequestId := some "ws_5",
    isPaid := false, paidAt := none, paymentResult := none, status := "pending" }

def c5Db : DB := { orders := [c5Order], transactions := [], carts := [], notifs := [] }

def c5Payload : JsVal :=
  mkStkPayload (.num 0) "ws_5"
    [("Amount", .num 10), ("MpesaReceiptNumber", .str "RR"), ("PhoneNumber", .num 254700000002)]

def c1Order : Order :=
  { oid := "o1", user := some "u1", userEmail := some "buyer@example.com",
    items := [], totalAmount := 1300, paymentReference := some "MPESAREF1",
    mpesaCheckoutRequestId := some "ws_1", isPaid := false, paidAt := none,
    paymentResult := none, status := "pending" }

def c1Db : DB :=
  { orders := [c1Order], transactions := [],
    carts := [{ userId := "u1", items := ["p1"], totalItems := 1, totalPrice := 1300 }],
    notifs := [] }

def c1Payload : JsVal :=
  mkStkPayload (.num 0) "ws_1"
    [("Amount", .num 1300), ("MpesaReceiptNumber", .str "ABC123"),
     ("PhoneNumber", .num 254712345678)]

def c7Order : Order :=
  { oid := "o7", user := none, userEmail := none, items := [], totalAmount := 20,
    paymentReference := none, mpesaCheckoutRequestId := some "ws_7",
    isPaid := false, paidAt := none, paymentResult := none, status := "pending" }

def c7Db : DB := { orders := [c7Order], transactions := [], carts := [], notifs := [] }

def c10Order : Order :=
  { oid := "o10", user := none, userEmail := none, items := [], totalAmount := 30,
    paymentReference := none, mpesaCheckoutRequestId := some "ws_10",
    isPaid := false, paidAt := none, paymentResult := none, status := "pending" }

def c10Db : DB := { orders := [c10Order], transactions := [], carts := [], notifs := [] }

def c9D : StkPushData :=
  { amount := 1, partyA := "254712345678", phoneNumber := "254712345678",
    accountReference := "MPESA0FF", transactionType := "CustomerPayBillOnline",
    transactionDesc := "Seekon Apparel Purchase" }

def c4ReqNF : InitReq := { c4Req with orderId := some "nope" }

theorem jsFindByName_mk (items : List (String × JsVal)) (name : String) :
    jsFindByName (mkMetaItems items) name =
      .ok ((items.find? (fun p => p.1 == name)).map
            (fun p => JsVal.obj [("Name", .str p.1), ("Value", p.2)])) := by
  induction items with
  | nil => rfl
  | cons p rest ih =>
      by_cases h : p.1 = name
      · subst h
        simp [mkMetaItems, jsFindByName, JsVal.getField, JsVal.isStrEq, List.find?,
          bind, Except.bind]
      · have ih2 := ih
        simp only [mkMetaItems] at ih2
        have hb : (p.1 == name) = false := by simp [h]
        simp [mkMetaItems, jsFindByName, JsVal.getField, JsVal.isStrEq, List.find?, h,
          bind, Except.bind, ih2, hb]

theorem metaLookup_mk (items : List (String × JsVal)) (name : String) :
    metaLookup (.arr (mkMetaItems items)) name = .ok (metaGet items name) := by
  simp only [metaLookup, jsFindByName_mk, metaGet]
  cases h : items.find? (fun p => p.1 == name) with
  | none => rfl
  | some p => rfl

/-- On any payload of the documented gateway shape, the callback handler
raises no exception and applies exactly the callbackStep state change. -/
theorem mpesaCallbackProcess_mk (rc : JsVal) (cid : String)
    (items : List (String × JsVal)) (now : Nat) (db : DB) :
    mpesaCallbackProcess (mkStkPayload rc cid items) now db =
      .ok (callbackStep rc cid items now db) := by
  by_cases h : rc.isNumEq 0 = true
  · simp [mpesaCallbackProcess, mkStkPayload, stkObjOf, callbackStep,
      JsVal.getField, JsVal.getFieldOpt, JsVal.isTruthy, h, bind, Except.bind,
      jsOr, metaLookup_mk, List.lookup, Option.getD]
    cases findOrderByCheckoutId db (JsVal.str cid) <;> rfl
  · simp [mpesaCallbackProcess, mkStkPayload, stkObjOf, callbackStep,
      JsVal.getField, JsVal.getFieldOpt, JsVal.isTruthy, h, bind, Except.bind,
      jsOr, metaLookup_mk, List.lookup, Option.getD]

theorem findOrderByCheckoutId_createTransaction (db : DB) (t : Transaction) (v : JsVal) :
    findOrderByCheckoutId (createTransaction db t) v = findOrderByCheckoutId db v := by
  cases v <;> rfl

theorem applyOrderSuccess_transactions (db : DB) (o : Order) (a r p : JsVal) (t : Nat) :
    (applyOrderSuccess db o a r p t).transactions = db.transactions := by
  cases h : o.user <;>
    simp [applyOrderSuccess, createNotif, clearCartForUser, saveOrder, h]

theorem applyOrderSuccess_notifs (db : DB) (o : Order) (a r p : JsVal) (t : Nat) :
    (applyOrderSuccess db o a r p t).notifs = db.notifs ++ [paidNotif o a] := by
  cases h : o.user <;>
    simp [applyOrderSuccess, createNotif, clearCartForUser, saveOrder, h]

theorem applyOrderSuccess_orders (db : DB) (o : Order) (a r p : JsVal) (t : Nat) :
    (applyOrderSuccess db o a r p t).orders =
      db.orders.map (fun x => if x.oid == o.oid then paidOrder o r p t else x) := by
  cases h : o.user <;>
    simp [applyOrderSuccess, createNotif, clearCartForUser, saveOrder, h, paidOrder]

theorem applyOrderSuccess_carts (db : DB) (o : Order) (a r p : JsVal) (t : Nat) :
    (applyOrderSuccess db o a r p t).carts =
      (match o.user with
       | some uid => clearCartList db.carts uid
       | none => db.carts) := by
  cases h : o.user <;>
    simp [applyOrderSuccess, createNotif, clearCartForUser, saveOrder, h]

theorem applyFailure_transactions (db : DB) (v : JsVal) :
    (applyFailure db v).transactions = db.transactions := by
  unfold applyFailure
  cases findOrderByCheckoutId db v <;> simp [saveOrder]

theorem applyFailure_carts (db : DB) (v : JsVal) :
    (applyFailure db v).carts = db.carts := by
  unfold applyFailure
  cases findOrderByCheckoutId db v <;> simp [saveOrder]

theorem applyFailure_notifs (db : DB) (v : JsVal) :
    (applyFailure db v).notifs = db.notifs := by
  unfold applyFailure
  cases findOrderByCheckoutId db v <;> simp [saveOrder]

theorem applyFailure_orders (db : DB) (v : JsVal) :
    (applyFailure db v).orders =
      (match findOrderByCheckoutId db v with
       | some o => db.orders.map (fun x => if x.oid == o.oid then { o with status := "cancelled" } else x)
       | none => db.orders) := by
  unfold applyFailure
  cases findOrderByCheckoutId db v <;> simp [saveOrder]

theorem string_ext_data (a b : String) (h : a.data = b.data) : a = b := by
  cases a
  cases b
  exact congrArg String.mk h

theorem formatPhone_data (raw : String) :
    (formatPhone raw).data =
      (if List.isPrefixOf ['0'] (raw.data.filter Char.isDigit)
       then '2' :: '5' :: '4' :: (raw.data.filter Char.isDigit).drop 1
       else raw.data.filter Char.isDigit) := by
  unfold formatPhone stripNonDigits jsStartsWith
  dsimp only
  have h0 : ("0" : String).toList = ['0'] := rfl
  have hr : raw.toList = raw.data := rfl
  have hmk : ∀ l : List Char, (String.mk l).toList = l := fun _ => rfl
  rw [h0, hr, hmk]
  split <;> rfl

theorem fp_trunk (d : String) (hd : ∀ c ∈ d.data, c.isDigit = true) :
    formatPhone ("0" ++ d) = "254" ++ d := by
  apply string_ext_data
  have hl : ("0" ++ d).data = '0' :: d.data := by
    rw [String.data_append]
    rfl
  rw [formatPhone_data, hl]
  simp [List.filter_cons, List.filter_eq_self.mpr hd, List.isPrefixOf, String.data_append]

theorem fp_plus (d : String) (hd : ∀ c ∈ d.data, c.isDigit = true) :
    formatPhone ("+254" ++ d) = "254" ++ d := by
  apply string_ext_data
  have hl : ("+254" ++ d).data = '+' :: '2' :: '5' :: '4' :: d.data := by
    rw [String.data_append]
    rfl
  rw [formatPhone_data, hl]
  simp [List.filter_cons, List.filter_eq_self.mpr hd, List.isPrefixOf, String.data_append]

theorem fp_cc (d : String) (hd : ∀ c ∈ d.data, c.isDigit = true) :
    formatPhone ("254" ++ d) = "254" ++ d := by
  apply string_ext_data
  have hl : ("254" ++ d).data = '2' :: '5' :: '4' :: d.data := by
    rw [String.data_append]
    rfl
  rw [formatPhone_data, hl]
  simp [List.filter_cons, List.filter_eq_self.mpr hd, List.isPrefixOf, String.data_append]

theorem initiate_stkSend_shape (env : InitEnv) (req : InitReq) (db : DB) (e : Nat)
    (r : String) (d : StkPushData) (h : initiateMpesa env req db e r = .stkSend d) :
    ∃ ph em a, req.phone = some ph ∧ req.userEmail = some em ∧
      effectiveAmount req db = some a ∧ ¬ a = 0 ∧
      jsStartsWith (formatPhone ph) "254" = true ∧ env.hasCredentials = true ∧
      d = { amount := if env.isSandbox then 1 else jsRound a,
            partyA := formatPhone ph
            phoneNumber := formatPhone ph
            accountReference := "MPESA" ++ toString e ++ r
            transactionType := "CustomerPayBillOnline"
            transactionDesc := "Seekon Apparel Purchase" } := by
  rcases req with ⟨pf, af, ef, of⟩
  cases pf with
  | none => exact absurd h (by simp [initiateMpesa])
  | some ph =>
    cases ef with
    | none => exact absurd h (by simp [initiateMpesa])
    | some em =>
      unfold initiateMpesa at h
      dsimp only at h
      cases hea : effectiveAmount ⟨some ph, af, some em, of⟩ db with
      | none => rw [hea] at h; exact absurd h (by simp)
      | some a =>
        rw [hea] at h
        dsimp only at h
        by_cases ha : a = 0
        · rw [if_pos ha] at h; exact absurd h (by simp)
        · rw [if_neg ha] at h
          by_cases hjs : jsStartsWith (formatPhone ph) "254" = true
          · rw [if_neg (by simp [hjs])] at h
            by_cases hcred : env.hasCredentials = true
            · rw [if_neg (by simp [hcred])] at h
              refine ⟨ph, em, a, rfl, rfl, rfl, ha, hjs, hcred, ?_⟩
              simpa using h.symm
            · rw [if_pos (by simpa using hcred)] at h
              exact absurd h (by simp)
          · rw [if_pos (by simpa using hjs)] at h
            exact absurd h (by simp)

/-- C8: normalization maps the three national formats to a value
starting with 254 with the subscriber digits preserved, and any request
whose normalized phone does not start with 254 is rejected with the
invalid-phone 400 error before any gateway interaction. -/
theorem C8_phone_normalization :
    (∀ d : String, (∀ c ∈ d.data, c.isDigit = true) →
       formatPhone ("0" ++ d) = "254" ++ d ∧
       formatPhone ("+254" ++ d) = "254" ++ d ∧
       formatPhone ("254" ++ d) = "254" ++ d) ∧
    (∀ env db e r ph em (a : Rat), ¬ a = 0 →
       jsStartsWith (formatPhone ph) "254" = false →
       initiateMpesa env
         { phone := some ph, amount := some a, userEmail := some em, orderId := none }
         db e r = .badRequest "Invalid Kenyan phone number format") := by
  constructor
  · intro d hd
    exact ⟨fp_trunk d hd, fp_plus d hd, fp_cc d hd⟩
  · intro env db e r ph em a ha hjs
    unfold initiateMpesa effectiveAmount
    dsimp only
    rw [if_neg ha, if_pos]
    simp [hjs]

/-- C9: the amount transmitted to the gateway is the JS rounding of the
determined amount in production mode, and in sandbox mode it is always 1
regardless of the input amount. -/
theorem C9_amount_rounding :
    (∀ env db e r ph em (a : Rat) d,
       initiateMpesa env
         { phone := some ph, amount := some a, userEmail := some em, orderId := none }
         db e r = .stkSend d →
       d.amount = if env.isSandbox then 1 else jsRound a) ∧
    (∀ env req db e r d, env.isSandbox = true →
       initiateMpesa env req db e r = .stkSend d → d.amount = 1) := by
  constructor
  · intro env db e r ph em a d h
    obtain ⟨ph2, em2, a2, hph, hem, hea, ha2, hjs, hcred, hd⟩ := initiate_stkSend_shape _ _ _ _ _ _ h
    have haa : a = a2 := by
      have : effectiveAmount
          { phone := some ph, amount := some a, userEmail := some em, orderId := none } db = some a := rfl
      rw [this] at hea
      exact Option.some.inj hea
    rw [hd, haa]
  · intro env req db e r d hsand h
    obtain ⟨ph2, em2, a2, hph, hem, hea, ha2, hjs, hcred, hd⟩ := initiate_stkSend_shape _ _ _ _ _ _ h
    rw [hd]
    simp [hsand]

/-- C4 (amended): when orderId is supplied and the order is found, the
amount sent to the gateway is the rounded stored-line-item total in
production mode but the forced test value 1 in sandbox mode; in both
modes the outcome is independent of the caller-supplied amount.  When
the order lookup misses, initiation behaves exactly as if no orderId had
been supplied, using the caller amount instead of aborting. -/
theorem C4_amended :
    (∀ env req db e r oid o, req.orderId = some oid → findOrderById db oid = some o →
       (∀ d, initiateMpesa env req db e r = .stkSend d →
          d.amount = if env.isSandbox then 1 else jsRound (orderTotal o)) ∧
       (∀ a1 a2, initiateMpesa env { req with amount := a1 } db e r =
                 initiateMpesa env { req with amount := a2 } db e r)) ∧
    (∀ env req db e r oid, req.orderId = some oid → findOrderById db oid = none →
       initiateMpesa env req db e r =
         initiateMpesa env { req with orderId := none } db e r) := by
  constructor
  · intro env req db e r oid o hoid hfind
    have heff : effectiveAmount req db = some (orderTotal o) := by
      unfold effectiveAmount
      rw [hoid]
      dsimp only
      rw [hfind]
    constructor
    · intro d h
      obtain ⟨ph2, em2, a2, hph, hem, hea, ha2, hjs, hcred, hd⟩ :=
        initiate_stkSend_shape _ _ _ _ _ _ h
      rw [heff] at hea
      rw [hd, Option.some.inj hea]
    · intro a1 a2
      rcases req with ⟨pf, af, ef, of⟩
      have h1 : effectiveAmount ⟨pf, a1, ef, of⟩ db = effectiveAmount ⟨pf, a2, ef, of⟩ db := by
        unfold effectiveAmount
        dsimp only at hoid ⊢
        rw [hoid]
        dsimp only
        rw [hfind]
      cases pf with
      | none => rfl
      | some ph =>
        cases ef with
        | none => rfl
        | some em =>
          unfold initiateMpesa
          dsimp only
          rw [h1]
  · intro env req db e r oid hoid hfind
    rcases req with ⟨pf, af, ef, of⟩
    have h1 : effectiveAmount ⟨pf, af, ef, of⟩ db = effectiveAmount ⟨pf, af, ef, none⟩ db := by
      unfold effectiveAmount
      dsimp only at hoid ⊢
      rw [hoid]
      dsimp only
      rw [hfind]
    cases pf with
    | none => rfl
    | some ph =>
      cases ef with
      | none => rfl
      | some em =>
        unfold initiateMpesa
        dsimp only
        rw [h1]

/-- C4 counterexample: in sandbox mode, an order totalling 1300 with
caller-supplied amount 1 initiates with gateway amount 1, not the
recomputed 1300 the claim requires for every initiation. -/
theorem C4_counterexample :
    initiateMpesa { hasCredentials := true, isSandbox := true } c4Req c4Db 0 "AB12CD" =
      .stkSend { amount := 1, partyA := "254712345678", phoneNumber := "254712345678",
                 accountReference := "MPESA0AB12CD",
                 transactionType := "CustomerPayBillOnline",
                 transactionDesc := "Seekon Apparel Purchase" } ∧
    jsRound (orderTotal c4Order) = 1300 ∧ (1 : Int) ≠ 1300 := by
  have htot : orderTotal c4Order = (1300 : Rat) := by
    show (0 : Rat) + 500 * 2 + 300 * 1 = 1300
    norm_num
  refine ⟨?_, ?_, by decide⟩
  · unfold initiateMpesa
    dsimp only [c4Req]
    have hea : effectiveAmount
        { phone := some "0712345678", amount := some 1, userEmail := some "b@c.d",
          orderId := some "ord4" } c4Db = some (orderTotal c4Order) := rfl
    rw [hea]
    dsimp only
    rw [if_neg (by rw [htot]; norm_num)]
    have hph : jsStartsWith (formatPhone "0712345678") "254" = true := by decide
    rw [if_neg (by simp [hph])]
    rw [if_neg (by simp)]
    rfl
  · rw [htot]
    norm_num [jsRound]

theorem mpesaCallback_fst_mk (rc : JsVal) (cid : String) (items : List (String × JsVal))
    (now : Nat) (db : DB) :
    (mpesaCallback (mkStkPayload rc cid items) now db).1 = callbackStep rc cid items now db := by
  simp [mpesaCallback, mpesaCallbackProcess_mk]

theorem processMpesaResult_eq (rc cid a r p : JsVal) (now : Nat) (db : DB) :
    processMpesaResult rc cid a r p now db = processStep rc cid a r p now db := by
  unfold processMpesaResult processStep
  split
  · dsimp only
    rw [findOrderByCheckoutId_createTransaction]
    cases findOrderByCheckoutId db cid <;> rfl
  · rfl

/-- C2 (amended): the callback endpoint answers the fixed body with
status 200 only when processing raises no exception -- in particular on
every payload of the documented gateway shape; when an exception escapes
the inner handlers, the outer catch answers status 500, so the response
is always exactly one of these two. -/
theorem C2_amended (body : JsVal) (now : Nat) (db : DB) :
    ((mpesaCallback body now db).2 = ⟨200, acceptedBody⟩ ∨
     (mpesaCallback body now db).2 = ⟨500, callbackErrorBody⟩) ∧
    (∀ rc cid items, (mpesaCallback (mkStkPayload rc cid items) now db).2 =
       ⟨200, acceptedBody⟩) := by
  constructor
  · unfold mpesaCallback
    cases mpesaCallbackProcess body now db <;> simp
  · intro rc cid items
    simp [mpesaCallback, mpesaCallbackProcess_mk]

/-- C2 counterexample: a payload whose CallbackMetadata.Item is the
number 5 makes meta.find throw, and the endpoint answers 500, not the
claimed unconditional 200. -/
theorem C2_counterexample :
    (mpesaCallback c2BadPayload 0 { orders := [], transactions := [], carts := [], notifs := [] }).2 =
      ⟨500, callbackErrorBody⟩ ∧ (500 : Nat) ≠ 200 := by
  exact ⟨rfl, by decide⟩

/-- C1 (amended): the code performs no existing-record check, so each
application of a success outcome for a correlationId appends one new
FinancialRecord and, when an order is linked, one new notification,
regardless of what is already stored -- via the callback entry point and
via processMpesaResult alike.  Applying a success outcome twice therefore
creates two FinancialRecords and re-triggers the notification, refuting
the at-most-once claim. -/
theorem C1_amended (cid : String) (items : List (String × JsVal)) (now : Nat) (db : DB) :
    ((mpesaCallback (mkStkPayload (.num 0) cid items) now db).1.transactions.length =
       db.transactions.length + 1) ∧
    (∀ o, findOrderByCheckoutId db (.str cid) = some o →
       (mpesaCallback (mkStkPayload (.num 0) cid items) now db).1.notifs.length =
         db.notifs.length + 1) ∧
    (∀ rc a r p, (rc.isNumEq 0 || rc.isStrEq "0") = true →
       (processMpesaResult rc (.str cid) a r p now db).1.transactions.length =
         db.transactions.length + 1) := by
  have h0 : (JsVal.num 0).isNumEq 0 = true := by decide
  refine ⟨?_, ?_, ?_⟩
  · rw [mpesaCallback_fst_mk]
    unfold callbackStep
    rw [if_pos h0]
    cases hfind : findOrderByCheckoutId db (.str cid) with
    | none => simp [createTransaction]
    | some o => simp [applyOrderSuccess_transactions, createTransaction]
  · intro o hfind
    rw [mpesaCallback_fst_mk]
    unfold callbackStep
    rw [if_pos h0, hfind]
    simp [applyOrderSuccess_notifs, createTransaction]
  · intro rc a r p hrc
    rw [processMpesaResult_eq]
    unfold processStep
    rw [if_pos hrc]
    cases hfind : findOrderByCheckoutId db (.str cid) with
    | none => simp [hfind, createTransaction]
    | some o => simp [hfind, applyOrderSuccess_transactions, createTransaction]

/-- C3 (amended): the two entry points duplicate the resolution logic
instead of sharing one resolve operation.  For numeric result codes the
duplicated branches agree on the success/failure decision, the order
updates, the cart-clear and the notification, and the created
FinancialRecords agree on all fields except the raw-callback audit
fields; but the query path additionally accepts the string zero as
success, where the callback path treats it as failure. -/
theorem C3_amended (q : Rat) (cid : String) (items : List (String × JsVal))
    (now : Nat) (db : DB) :
    ((mpesaCallback (mkStkPayload (.num q) cid items) now db).1.orders =
      (processMpesaResult (.num q) (.str cid) (metaGet items "Amount")
        (metaGet items "MpesaReceiptNumber") (metaGet items "PhoneNumber") now db).1.orders) ∧
    ((mpesaCallback (mkStkPayload (.num q) cid items) now db).1.carts =
      (processMpesaResult (.num q) (.str cid) (metaGet items "Amount")
        (metaGet items "MpesaReceiptNumber") (metaGet items "PhoneNumber") now db).1.carts) ∧
    ((mpesaCallback (mkStkPayload (.num q) cid items) now db).1.notifs =
      (processMpesaResult (.num q) (.str cid) (metaGet items "Amount")
        (metaGet items "MpesaReceiptNumber") (metaGet items "PhoneNumber") now db).1.notifs) ∧
    ((mpesaCallback (mkStkPayload (.num q) cid items) now db).1.transactions.map txCore =
      (processMpesaResult (.num q) (.str cid) (metaGet items "Amount")
        (metaGet items "MpesaReceiptNumber") (metaGet items "PhoneNumber") now db).1.transactions.map txCore) := by
  rw [mpesaCallback_fst_mk, processMpesaResult_eq]
  unfold callbackStep processStep
  by_cases hq : q = 0
  · subst hq
    have h0 : (JsVal.num 0).isNumEq 0 = true := by decide
    rw [if_pos h0, if_pos (by simp [h0])]
    cases hfind : findOrderByCheckoutId db (.str cid) with
    | none =>
        refine ⟨rfl, rfl, rfl, ?_⟩
        simp [createTransaction, txCore, mkSuccessTransaction]
    | some o =>
        refine ⟨?_, ?_, ?_, ?_⟩
        · rw [applyOrderSuccess_orders, applyOrderSuccess_orders]
          simp [createTransaction]
        · rw [applyOrderSuccess_carts, applyOrderSuccess_carts]
          simp [createTransaction]
        · rw [applyOrderSuccess_notifs, applyOrderSuccess_notifs]
          simp [createTransaction]
        · rw [applyOrderSuccess_transactions, applyOrderSuccess_transactions]
          simp [createTransaction, txCore, mkSuccessTransaction]
  · have h1 : (JsVal.num q).isNumEq 0 = false := by simp [JsVal.isNumEq, hq]
    have h2 : (JsVal.num q).isStrEq "0" = false := rfl
    rw [if_neg (by simp [h1]), if_neg (by simp [h1, h2])]
    exact ⟨rfl, rfl, rfl, rfl⟩

/-- C3 counterexample: for the same signal with result code the string
zero, the callback handler cancels the order and creates no Transaction
while the query handler creates a Transaction and marks the order paid
-- the two entry points do not apply the same decision. -/
theorem C3_counterexample :
    ((mpesaCallback (mkStkPayload (.str "0") "ws_2" []) 0 c3Db).1.transactions.length = 0) ∧
    ((mpesaCallback (mkStkPayload (.str "0") "ws_2" []) 0 c3Db).1.orders.map Order.status =
      ["cancelled"]) ∧
    ((processMpesaResult (.str "0") (.str "ws_2") .null .null .null 0 c3Db).1.transactions.length = 1) ∧
    ((processMpesaResult (.str "0") (.str "ws_2") .null .null .null 0 c3Db).1.orders.map Order.status =
      ["processing"]) ∧
    ((processMpesaResult (.str "0") (.str "ws_2") .null .null .null 0 c3Db).1.orders.map Order.isPaid =
      [true]) := by
  decide

theorem findOrderByCheckoutId_mem (db : DB) (v : JsVal) (o : Order)
    (h : findOrderByCheckoutId db v = some o) : o ∈ db.orders := by
  cases v <;> simp [findOrderByCheckoutId] at h
  exact List.mem_of_find?_eq_some h

theorem isPaid_mono_update (xs : List Order) (o o2 : Order) (ho : o ∈ xs)
    (hnodup : (xs.map Order.oid).Nodup)
    (hp : o.isPaid = true → o2.isPaid = true) :
    List.Forall₂ (fun b1 b2 : Bool => b1 = true → b2 = true) (xs.map Order.isPaid)
      ((xs.map (fun x => if x.oid == o.oid then o2 else x)).map Order.isPaid) := by
  induction xs with
  | nil => simp at ho
  | cons y ys ih =>
      rw [List.map_cons, List.nodup_cons] at hnodup
      obtain ⟨hy, hnd⟩ := hnodup
      rcases List.mem_cons.mp ho with hoy | hmem
      · subst hoy
        have hconst : ∀ x ∈ ys, (if x.oid == o.oid then o2 else x) = x := by
          intro x hx
          have : x.oid ≠ o.oid := by
            intro he
            exact hy (he ▸ List.mem_map_of_mem Order.oid hx)
          simp [this]
        simp only [List.map_cons, beq_self_eq_true, if_true]
        refine List.Forall₂.cons hp ?_
        rw [List.map_congr_left hconst]
        simp only [List.map_id']
        exact List.forall₂_same.mpr (fun x _ => id)
      · have hyo : (y.oid == o.oid) = false := by
          have : y.oid ≠ o.oid := by
            intro he
            exact hy (he ▸ List.mem_map_of_mem Order.oid hmem)
          simp [this]
        simp only [List.map_cons, hyo, if_false]
        exact List.Forall₂.cons (fun h => h) (ih hmem hnd)

/-- C6 (amended): isPaid is monotone -- once true it is never reverted
by any later callback or query-result processing -- but the terminal
state is not otherwise protected: a later failure signal overwrites the
status of an already-paid order with cancelled, as the counterexample
shows. -/
theorem C6_amended (rc : JsVal) (cid : String) (items : List (String × JsVal))
    (now : Nat) (db : DB) (hnd : (db.orders.map Order.oid).Nodup) :
    (List.Forall₂ (fun b1 b2 : Bool => b1 = true → b2 = true)
       (db.orders.map Order.isPaid)
       ((mpesaCallback (mkStkPayload rc cid items) now db).1.orders.map Order.isPaid)) ∧
    (∀ rc2 v a r p, List.Forall₂ (fun b1 b2 : Bool => b1 = true → b2 = true)
       (db.orders.map Order.isPaid)
       ((processMpesaResult rc2 v a r p now db).1.orders.map Order.isPaid)) := by
  have hrefl : ∀ ys : List Order,
      List.Forall₂ (fun b1 b2 : Bool => b1 = true → b2 = true)
        (ys.map Order.isPaid) (ys.map Order.isPaid) :=
    fun ys => List.forall₂_same.mpr (fun x _ => id)
  have hfail : List.Forall₂ (fun b1 b2 : Bool => b1 = true → b2 = true)
      (db.orders.map Order.isPaid) ((applyFailure db (.str cid)).orders.map Order.isPaid) := by
    rw [applyFailure_orders]
    cases hfind : findOrderByCheckoutId db (.str cid) with
    | none => exact hrefl db.orders
    | some o =>
        exact isPaid_mono_update db.orders o _ (findOrderByCheckoutId_mem db _ o hfind) hnd
          (fun h => h)
  constructor
  · rw [mpesaCallback_fst_mk]
    unfold callbackStep
    by_cases h0 : rc.isNumEq 0 = true
    · rw [if_pos h0]
      cases hfind : findOrderByCheckoutId db (.str cid) with
      | none => exact hrefl db.orders
      | some o =>
          rw [applyOrderSuccess_orders]
          simp only [createTransaction]
          exact isPaid_mono_update db.orders o _ (findOrderByCheckoutId_mem db _ o hfind) hnd
            (fun _ => rfl)
    · rw [if_neg h0]
      exact hfail
  · intro rc2 v a r p
    rw [processMpesaResult_eq]
    unfold processStep
    by_cases h0 : (rc2.isNumEq 0 || rc2.isStrEq "0") = true
    · rw [if_pos h0]
      cases hfind : findOrderByCheckoutId db v with
      | none => simp only [createTransaction]; exact hrefl db.orders
      | some o =>
          rw [applyOrderSuccess_orders]
          simp only [createTransaction]
          exact isPaid_mono_update db.orders o _ (findOrderByCheckoutId_mem db _ o hfind) hnd
            (fun _ => rfl)
    · rw [if_neg h0]
      rw [show (applyFailure db v, false).1 = applyFailure db v from rfl]
      rw [applyFailure_orders]
      cases hfind : findOrderByCheckoutId db v with
      | none => exact hrefl db.orders
      | some o =>
          exact isPaid_mono_update db.orders o _ (findOrderByCheckoutId_mem db _ o hfind) hnd
            (fun h => h)

/-- C6 counterexample: an order already paid (status processing) whose
correlationId later receives a failure callback ends with status
cancelled while isPaid stays true -- the terminal payment state is
overwritten. -/
theorem C6_counterexample :
    ((mpesaCallback (mkStkPayload (.num 1032) "ws_6" []) 2 c6Db).1.orders.map Order.status =
      ["cancelled"]) ∧
    ((mpesaCallback (mkStkPayload (.num 1032) "ws_6" []) 2 c6Db).1.orders.map Order.isPaid =
      [true]) ∧
    c6Db.orders.map Order.status = ["processing"] ∧ c6Db.orders.map Order.isPaid = [true] := by
  decide

theorem applyFailure_outcome (db : DB) (cid : String) :
    FailureOutcome db (applyFailure db (.str cid)) cid := by
  refine ⟨applyFailure_transactions db _, applyFailure_carts db _, applyFailure_notifs db _,
    ?_, ?_⟩
  · intro hnone
    unfold applyFailure
    rw [hnone]
  · intro o hfind
    rw [applyFailure_orders, hfind]

/-- C7: for every failure outcome (non-zero numeric result code), both
the callback handler and processMpesaResult create no FinancialRecord,
leave carts and notifications untouched, set the linked order (if any)
to cancelled leaving all other orders unchanged, and change nothing at
all when no order is linked. -/
theorem C7_failure_effects (n : Rat) (hn : ¬ n = 0) (cid : String) (items : List (String × JsVal))
    (now : Nat) (db : DB) :
    FailureOutcome db (mpesaCallback (mkStkPayload (.num n) cid items) now db).1 cid ∧
    (∀ a r p, FailureOutcome db (processMpesaResult (.num n) (.str cid) a r p now db).1 cid ∧
       (processMpesaResult (.num n) (.str cid) a r p now db).2 = false) := by
  have h1 : (JsVal.num n).isNumEq 0 = false := by simp [JsVal.isNumEq, hn]
  have h2 : (JsVal.num n).isStrEq "0" = false := rfl
  constructor
  · rw [mpesaCallback_fst_mk]
    unfold callbackStep
    rw [if_neg (by simp [h1])]
    exact applyFailure_outcome db cid
  · intro a r p
    rw [processMpesaResult_eq]
    unfold processStep
    rw [if_neg (by simp [h1, h2])]
    exact ⟨applyFailure_outcome db cid, rfl⟩

/-- C10: a status query whose gateway response carries any non-zero
numeric ResultCode -- including codes meaning still pending -- is
processed as a failure: no Transaction is created and the order linked
to the correlationId, if any, is set to cancelled. -/
theorem C10_query_failure (n : Rat) (hn : ¬ n = 0) (desc cid : String) (now : Nat) (db : DB) :
    queryProcess (.obj [("ResultCode", .num n), ("ResultDesc", .str desc)]) cid now db =
      .ok (applyFailure db (.str cid), false) ∧
    FailureOutcome db (applyFailure db (.str cid)) cid := by
  have h1 : (JsVal.num n).isNumEq 0 = false := by simp [JsVal.isNumEq, hn]
  have h2 : (JsVal.num n).isStrEq "0" = false := rfl
  refine ⟨?_, applyFailure_outcome db cid⟩
  rw [queryProcess]
  simp [JsVal.getField, List.lookup, JsVal.isTruthy, bind, Except.bind,
    processMpesaResult_eq, processStep, h1, h2, pure, Except.pure]

/-- C5 (amended): the safaricomIpWhitelist middleware, when invoked,
rejects every non-development request whose cleaned source address is
neither localhost nor a listed gateway address, and passes everything in
development mode; but the mpesa-callback route mounts the handler with
no middleware, so every request reaches mpesaCallback unchecked. -/
theorem C5_amended :
    (∀ xf ra env, env ≠ "development" →
       isLocalhostIp (cleanRequestIp xf ra) = false →
       (∀ ip, cleanRequestIp xf ra = some ip → ip ∉ safaricomIPs) →
       safaricomIpWhitelist xf ra env = .forbidden) ∧
    (∀ xf ra, safaricomIpWhitelist xf ra "development" = .proceed) ∧
    (∀ xf ra env body now db,
       handleMpesaCallbackRoute xf ra env body now db = mpesaCallback body now db) := by
  refine ⟨?_, ?_, fun _ _ _ _ _ _ => rfl⟩
  · intro xf ra env henv hloc hip
    unfold safaricomIpWhitelist
    rw [if_neg (by simp [henv, hloc])]
    cases hclean : cleanRequestIp xf ra with
    | none => rfl
    | some ip =>
        have hmem : ip ∉ safaricomIPs := hip ip hclean
        have hcf : safaricomIPs.contains ip = false := by
          simpa using hmem
        simp [hcf, hmem]
  · intro xf ra
    unfold safaricomIpWhitelist
    rw [if_pos (by simp)]

/-- C5 counterexample: a production request from 41.90.1.1 -- an address
the middleware itself would reject -- is accepted by the callback route
with status 200 and creates a Transaction, refuting the claimed 403 with
no state change. -/
theorem C5_counterexample :
    ((handleMpesaCallbackRoute (some "41.90.1.1") none "production" c5Payload 3 c5Db).2.status =
      200) ∧
    ((handleMpesaCallbackRoute (some "41.90.1.1") none "production" c5Payload 3 c5Db).1.transactions.length = 1) ∧
    (safaricomIpWhitelist (some "41.90.1.1") none "production" = .forbidden) := by
  refine ⟨?_, ?_, by decide⟩ <;> decide

/-- C1 counterexample: delivering the same success callback twice for
correlationId ws_1 yields two Transactions and two notifications, where
the claim demands exactly one of each. -/
theorem C1_counterexample :
    ((mpesaCallback c1Payload 6 (mpesaCallback c1Payload 5 c1Db).1).1.transactions.length = 2) ∧
    ((mpesaCallback c1Payload 6 (mpesaCallback c1Payload 5 c1Db).1).1.notifs.length = 2) ∧
    ((mpesaCallback c1Payload 5 c1Db).1.transactions.length = 1) := by
  decide

/-- C1 witness: the amended theorem evaluated on a concrete order,
callback payload and query signal. -/
theorem C1_witness :
    ((mpesaCallback c1Payload 5 c1Db).1.transactions.length = c1Db.transactions.length + 1) ∧
    ((mpesaCallback c1Payload 5 c1Db).1.notifs.length = c1Db.notifs.length + 1) ∧
    ((processMpesaResult (.num 0) (.str "ws_1") (.num 1300) (.str "ABC123")
       (.num 254712345678) 5 c1Db).1.transactions.length = c1Db.transactions.length + 1) :=
  ⟨(C1_amended "ws_1"
      [("Amount", .num 1300), ("MpesaReceiptNumber", .str "ABC123"),
       ("PhoneNumber", .num 254712345678)] 5 c1Db).1,
   (C1_amended "ws_1"
      [("Amount", .num 1300), ("MpesaReceiptNumber", .str "ABC123"),
       ("PhoneNumber", .num 254712345678)] 5 c1Db).2.1 c1Order rfl,
   (C1_amended "ws_1"
      [("Amount", .num 1300), ("MpesaReceiptNumber", .str "ABC123"),
       ("PhoneNumber", .num 254712345678)] 5 c1Db).2.2 (.num 0) (.num 1300) (.str "ABC123")
      (.num 254712345678) (by decide)⟩

/-- C6 witness: the amended theorem evaluated on a concrete paid
order. -/
theorem C6_witness :
    List.Forall₂ (fun b1 b2 : Bool => b1 = true → b2 = true)
      (c6Db.orders.map Order.isPaid)
      ((mpesaCallback (mkStkPayload (.num 1032) "ws_6" []) 2 c6Db).1.orders.map Order.isPaid) :=
  (C6_amended (.num 1032) "ws_6" [] 2 c6Db (by decide)).1

/-- C7 witness: the theorem evaluated at result code 1032 on a concrete
linked order. -/
theorem C7_witness :
    FailureOutcome c7Db (mpesaCallback (mkStkPayload (.num 1032) "ws_7" []) 1 c7Db).1 "ws_7" ∧
    (FailureOutcome c7Db
       (processMpesaResult (.num 1032) (.str "ws_7") .null .null .null 1 c7Db).1 "ws_7" ∧
     (processMpesaResult (.num 1032) (.str "ws_7") .null .null .null 1 c7Db).2 = false) :=
  ⟨(C7_failure_effects 1032 (by norm_num) "ws_7" [] 1 c7Db).1,
   (C7_failure_effects 1032 (by norm_num) "ws_7" [] 1 c7Db).2 .null .null .null⟩

/-- C10 witness: the theorem evaluated at result code 1032 on a
concrete linked order. -/
theorem C10_witness :
    queryProcess
        (.obj [("ResultCode", .num 1032), ("ResultDesc", .str "Request cancelled by user")])
        "ws_10" 0 c10Db =
      .ok (applyFailure c10Db (.str "ws_10"), false) ∧
    FailureOutcome c10Db (applyFailure c10Db (.str "ws_10")) "ws_10" :=
  C10_query_failure 1032 (by norm_num) "Request cancelled by user" "ws_10" 0 c10Db

/-- C8 witness: the theorem evaluated on the subscriber digits
712345678 and on a rejected phone. -/
theorem C8_witness :
    (formatPhone ("0" ++ "712345678") = "254" ++ "712345678" ∧
     formatPhone ("+254" ++ "712345678") = "254" ++ "712345678" ∧
     formatPhone ("254" ++ "712345678") = "254" ++ "712345678") ∧
    initiateMpesa { hasCredentials := true, isSandbox := false }
      { phone := some "12345", amount := some 100, userEmail := some "x@y.z", orderId := none }
      { orders := [], transactions := [], carts := [], notifs := [] } 0 "FF" =
      .badRequest "Invalid Kenyan phone number format" :=
  ⟨C8_phone_normalization.1 "712345678" (by decide),
   C8_phone_normalization.2 { hasCredentials := true, isSandbox := false }
     { orders := [], transactions := [], carts := [], notifs := [] } 0 "FF" "12345" "x@y.z"
     100 (by norm_num) (by decide)⟩

/-- C9 witness: the theorem evaluated on a concrete sandbox
initiation. -/
theorem C9_witness :
    c9D.amount = (if (InitEnv.mk true true).isSandbox then 1 else jsRound 100) ∧
    c9D.amount = 1 :=
  ⟨C9_amount_rounding.1 { hasCredentials := true, isSandbox := true }
     { orders := [], transactions := [], carts := [], notifs := [] } 0 "FF" "0712345678"
     "x@y.z" 100 c9D (by decide),
   C9_amount_rounding.2 { hasCredentials := true, isSandbox := true }
     { phone := some "0712345678", amount := some 100, userEmail := some "x@y.z",
       orderId := none }
     { orders := [], transactions := [], carts := [], notifs := [] } 0 "FF" c9D rfl
     (by decide)⟩

/-- C4 witness: the amended theorem evaluated on a concrete order and
on a missing-order request. -/
theorem C4_witness :
    (initiateMpesa { hasCredentials := true, isSandbox := true }
       { c4Req with amount := some 1 } c4Db 0 "AB" =
     initiateMpesa { hasCredentials := true, isSandbox := true }
       { c4Req with amount := some 999 } c4Db 0 "AB") ∧
    (initiateMpesa { hasCredentials := true, isSandbox := false } c4ReqNF
       { orders := [], transactions := [], carts := [], notifs := [] } 0 "AB" =
     initiateMpesa { hasCredentials := true, isSandbox := false }
       { c4ReqNF with orderId := none }
       { orders := [], transactions := [], carts := [], notifs := [] } 0 "AB") :=
  ⟨(C4_amended.1 { hasCredentials := true, isSandbox := true } c4Req c4Db 0 "AB"
      "ord4" c4Order rfl rfl).2 (some 1) (some 999),
   C4_amended.2 { hasCredentials := true, isSandbox := false } c4ReqNF
     { orders := [], transactions := [], carts := [], notifs := [] } 0 "AB" "nope" rfl rfl⟩

/-- C5 witness: the amended theorem evaluated on concrete addresses and
a concrete request. -/
theorem C5_witness :
    safaricomIpWhitelist (some "1.2.3.4") none "production" = .forbidden ∧
    safaricomIpWhitelist (some "196.201.214.200") none "development" = .proceed ∧
    handleMpesaCallbackRoute (some "1.2.3.4") none "production" JsVal.undefined 0
        { orders := [], transactions := [], carts := [], notifs := [] } =
      mpesaCallback JsVal.undefined 0 { orders := [], transactions := [], carts := [], notifs := [] } :=
  ⟨C5_amended.1 (some "1.2.3.4") none "production" (by decide) (by decide)
     (fun ip h => by
        have hc : cleanRequestIp (some "1.2.3.4") none = some "1.2.3.4" := rfl
        rw [hc] at h
        cases h
        decide),
   C5_amended.2.1 (some "196.201.214.200") none,
   C5_amended.2.2 (some "1.2.3.4") none "production" JsVal.undefined 0
     { orders := [], transactions := [], carts := [], notifs := [] }⟩
